import Mathlib

/-!
Shallow embedding of the LCOH (Levelized Cost of Hydrogen) calculator in
src/new.py, over exact rationals.

A Python dict of parameter values becomes `Assignment := String → Option ℚ`:
a lookup of a missing key (Python `KeyError`) is modelled by `Option.none`
propagating to the result, so `calculate_model` returns `Option ModelResult`.
Python floats are modelled by `ℚ`; every numeric literal of the source is a
decimal literal, hence exact in `ℚ`.
-/

set_option linter.unusedVariables false

/-- One entry of the static parameter registry (`parameters` in src/new.py).
Columns: key, display label, default value, min, max, "In the optimization". -/
structure Parameter where
  key : String
  label : String
  default_value : ℚ
  min_value : ℚ
  max_value : ℚ
  in_optimization : Bool
  deriving Repr, DecidableEq

/-- The static parameter registry, transcribed from `parameters` in src/new.py. -/
def parameters : List Parameter := [
  { key := "capex_mw_yr", label := "CAPEX [$/Mw/yr]", default_value := 3242.0,
    min_value := 0.0, max_value := 999999999.0, in_optimization := true },
  { key := "opex_mw_yr", label := "OPEX [$/Mw/yr]", default_value := 90000.0,
    min_value := 0.0, max_value := 999999999.0, in_optimization := true },
  { key := "annual_h2_prod", label := "Annual H2 Production [Kg/yr]", default_value := 876000.0,
    min_value := 0.0, max_value := 999999999.0, in_optimization := false },
  { key := "plant_size_mw", label := "Plant Size [Mw]", default_value := 100.0,
    min_value := 0.0, max_value := 999999.0, in_optimization := false },
  { key := "plant_life", label := "Plant Lifetime [yr]", default_value := 20.0,
    min_value := 1.0, max_value := 30.0, in_optimization := false },
  { key := "discount_rate", label := "Discount rate [%]", default_value := 5.0,
    min_value := 0.0, max_value := 15.0, in_optimization := false },
  { key := "capacity_factor", label := "Capacity Factor [%]", default_value := 90.0,
    min_value := 0.0, max_value := 100.0, in_optimization := true },
  { key := "h2_efficiency_1", label := "H2 Efficiency [kWh/kg] (1)", default_value := 50.0,
    min_value := 0.0, max_value := 9999.0, in_optimization := false },
  { key := "h2_efficiency_2", label := "H2 Efficiency [kWh/kg] (2)", default_value := 70.0,
    min_value := 0.0, max_value := 9999.0, in_optimization := false },
  { key := "electricity_cost", label := "Electricity Cost [$/Mwh]", default_value := 3.0,
    min_value := 1.0, max_value := 700.0, in_optimization := true },
  { key := "crf", label := "CRF", default_value := 0.094392926,
    min_value := 0.0, max_value := 1.0, in_optimization := false },
  { key := "dcf_factor", label := "DCF factor", default_value := 10.59401425,
    min_value := 0.0, max_value := 999999.0, in_optimization := false },
  { key := "h2_selling_price", label := "H2 Selling Price [$/kg]", default_value := 3.5,
    min_value := 0.0, max_value := 999999.0, in_optimization := true },
  { key := "carbon_tax", label := "Carbon Tax [$/ton co2]", default_value := 0.0,
    min_value := 0.0, max_value := 999999.0, in_optimization := true },
  { key := "tax_credit", label := "Tax Credit [$/kgH2]", default_value := 0.0,
    min_value := 0.0, max_value := 999999.0, in_optimization := true },
  { key := "h2_storage_cost", label := "Hydrogen Storage Cost [$/kg]", default_value := 1.0,
    min_value := 1.0, max_value := 700.0, in_optimization := false },
  { key := "h2_transport_cost", label := "Hydrogen Transportation Cost [$/kg]", default_value := 0.0,
    min_value := 0.0, max_value := 999999.0, in_optimization := false }]

/-- A Parameter Assignment: the Python dict `vals` passed to `calculate_model`.
A key not present in the dict maps to `none`. -/
abbrev Assignment : Type := String → Option ℚ

/-- Build an assignment from an association list (first binding of a key wins). -/
def mkAssign (l : List (String × ℚ)) : Assignment :=
  fun k => (l.find? (fun p => p.1 == k)).map Prod.snd

/-- The default `user_values` dict: every registry key bound to its default value
(each `st.number_input` starts at `param["default_value"]`). -/
def user_values : Assignment :=
  fun k => (parameters.find? (fun p => p.key == k)).map Parameter.default_value

/-- The Valuation Result record returned by `calculate_model` in src/new.py.
`money_check` is the literal string the source computes ("Money" when
`lcoh < h2_selling_price`, otherwise "No Money"); the spec calls the
corresponding boolean `feasible`. -/
structure ModelResult where
  capex_per_kg : ℚ
  opex_per_kg : ℚ
  elec_per_kg : ℚ
  carbon_tax_per_kg : ℚ
  lcoh : ℚ
  money_check : String
  revenue : ℚ
  cost : ℚ
  profit : ℚ
  npv : ℚ
  payback : ℚ
  roi : ℚ
  deriving Repr, DecidableEq

/-- The arithmetic body of `calculate_model` (src/new.py lines 274-338), after
the sixteen dict lookups have succeeded.  The argument order is the order the
Python function reads the keys.  `plant_life`, `discount_rate` and
`capacity_factor` are bound (and the latter two divided by 100) exactly as in
the source, and exactly as in the source they are never used afterwards. -/
def calculate_model_vals (capex_yr opex_yr annual_prod0 plant_life discount_rate_pct
    cap_factor_pct eff1 eff2 elec_cost crf dcf_factor h2_price carbon_tax_ton
    tax_credit storage_cost transport_cost : ℚ) : ModelResult :=
  let discount_rate : ℚ := discount_rate_pct / 100
  let cap_factor : ℚ := cap_factor_pct / 100
  let annual_prod : ℚ := if annual_prod0 ≤ 0 then (1e-9 : ℚ) else annual_prod0
  let capex_per_kg : ℚ := (capex_yr * crf) / annual_prod
  let opex_per_kg : ℚ := opex_yr / annual_prod
  let elec_per_kg : ℚ := (eff1 + eff2) * (elec_cost / 1000)
  let carbon_tax_per_kg : ℚ := carbon_tax_ton / 1000
  let lcoh : ℚ := capex_per_kg + opex_per_kg + elec_per_kg + carbon_tax_per_kg
      + storage_cost + transport_cost - tax_credit
  let money_check : String := if lcoh < h2_price then "Money" else "No Money"
  let revenue : ℚ := h2_price * annual_prod
  let total_cost : ℚ := lcoh * annual_prod
  let profit : ℚ := revenue - total_cost
  let npv : ℚ := profit * dcf_factor
  let payback : ℚ := if profit > 0 then 5 else 0
  let roi : ℚ := if total_cost ≠ 0 then (profit / total_cost) * 100 else 0
  { capex_per_kg := capex_per_kg, opex_per_kg := opex_per_kg,
    elec_per_kg := elec_per_kg, carbon_tax_per_kg := carbon_tax_per_kg,
    lcoh := lcoh, money_check := money_check, revenue := revenue,
    cost := total_cost, profit := profit, npv := npv,
    payback := payback, roi := roi }

/-- `calculate_model` (the spec's `evaluate`): the sixteen dict lookups of
src/new.py lines 274-290 followed by the arithmetic body.  A missing key
(Python `KeyError`) yields `none`.  Note that `plant_size_mw` is not looked up:
the source never reads it. -/
def calculate_model (vals : Assignment) : Option ModelResult :=
  match vals "capex_mw_yr", vals "opex_mw_yr", vals "annual_h2_prod",
      vals "plant_life", vals "discount_rate", vals "capacity_factor",
      vals "h2_efficiency_1", vals "h2_efficiency_2", vals "electricity_cost",
      vals "crf", vals "dcf_factor", vals "h2_selling_price",
      vals "carbon_tax", vals "tax_credit", vals "h2_storage_cost",
      vals "h2_transport_cost" with
  | some capex_yr, some opex_yr, some annual_prod0, some plant_life,
      some discount_rate_pct, some cap_factor_pct, some eff1, some eff2,
      some elec_cost, some crf, some dcf_factor, some h2_price,
      some carbon_tax_ton, some tax_credit, some storage_cost,
      some transport_cost =>
    some (calculate_model_vals capex_yr opex_yr annual_prod0 plant_life
      discount_rate_pct cap_factor_pct eff1 eff2 elec_cost crf dcf_factor
      h2_price carbon_tax_ton tax_credit storage_cost transport_cost)
  | _, _, _, _, _, _, _, _, _, _, _, _, _, _, _, _ => none

/-- The sixteen keys `calculate_model` reads, in read order. -/
def readKeys : List String :=
  ["capex_mw_yr", "opex_mw_yr", "annual_h2_prod", "plant_life", "discount_rate",
   "capacity_factor", "h2_efficiency_1", "h2_efficiency_2", "electricity_cost",
   "crf", "dcf_factor", "h2_selling_price", "carbon_tax", "tax_credit",
   "h2_storage_cost", "h2_transport_cost"]

/-- An assignment is complete when every key the engine reads is present. -/
abbrev Complete (v : Assignment) : Prop := ∀ k ∈ readKeys, (v k).isSome

/-- Overlaying candidate decision values onto a fixed assignment: the loop
`for i, k in enumerate(dv_keys): new_vals[k] = x[i]` over a dict copy
(src/new.py `objective` / `money_constraint` / the post-optimization decode). -/
def overlay (fixed : Assignment) (keys : List String) (xs : List ℚ) : Assignment :=
  (keys.zip xs).foldl (fun m p k => if k == p.1 then some p.2 else m k) fixed

/-- Decoding an optimization outcome (src/new.py lines 426-429): overlay the
solver's vector `res_x` onto `user_values` along `decision_keys`, then
re-evaluate. -/
def optimize_decode (fixed : Assignment) (decision_keys : List String)
    (res_x : List ℚ) : Option ModelResult :=
  calculate_model (overlay fixed decision_keys res_x)

/-- The decision keys defaulted from the registry: parameters whose
"In the optimization" checkbox starts checked. -/
def decision_keys : List String :=
  (parameters.filter (fun p => p.in_optimization)).map Parameter.key

/-- `np.linspace start stop num`: `num` evenly spaced samples, endpoints
included (`start + (stop - start) * i / (num - 1)` for `i = 0 .. num-1`). -/
def linspace (start stop : ℚ) (num : ℕ) : List ℚ :=
  (List.range num).map (fun i : ℕ => start + (stop - start) * (i : ℚ) / ((num : ℚ) - 1))

/-- One sensitivity series (src/new.py lines 463-475): sample the key's
`[min, max]` interval with `np.linspace(var_min, var_max, 20)`, overlay each
sample onto the fixed assignment, and record the sample with the resulting
`npv`. -/
def sweep_key (fixed : Assignment) (k : String) (var_min var_max : ℚ) :
    List (ℚ × Option ℚ) :=
  (linspace var_min var_max 20).map (fun val =>
    (val, (calculate_model (overlay fixed [k] [val])).map ModelResult.npv))

/-- Assignments used by concrete evaluations below: the registry defaults as a
literal dict (the state of `user_values` before any edit). -/
def default_assignment : Assignment := mkAssign
  [("capex_mw_yr", 3242), ("opex_mw_yr", 90000), ("annual_h2_prod", 876000),
   ("plant_size_mw", 100), ("plant_life", 20), ("discount_rate", 5),
   ("capacity_factor", 90), ("h2_efficiency_1", 50), ("h2_efficiency_2", 70),
   ("electricity_cost", 3), ("crf", 0.094392926), ("dcf_factor", 10.59401425),
   ("h2_selling_price", 3.5), ("carbon_tax", 0), ("tax_credit", 0),
   ("h2_storage_cost", 1), ("h2_transport_cost", 0)]

/-- The value `calculate_model` produces on `default_assignment`. -/
def default_result : ModelResult := calculate_model_vals 3242 90000 876000 20 5 90
  50 70 3 0.094392926 10.59401425 3.5 0 0 1 0

/-- `default_assignment` with only `discount_rate` and `capacity_factor` edited. -/
def discount_capacity_variant : Assignment :=
  overlay default_assignment ["discount_rate", "capacity_factor"] [12, 37]

/-- `default_assignment` with only `plant_size_mw` and `plant_life` edited. -/
def plant_variant : Assignment :=
  overlay default_assignment ["plant_size_mw", "plant_life"] [9999, 3]

/-- `default_assignment` with `annual_h2_prod` set to `0`. -/
def zero_prod_assignment : Assignment := mkAssign
  [("capex_mw_yr", 3242), ("opex_mw_yr", 90000), ("annual_h2_prod", 0),
   ("plant_size_mw", 100), ("plant_life", 20), ("discount_rate", 5),
   ("capacity_factor", 90), ("h2_efficiency_1", 50), ("h2_efficiency_2", 70),
   ("electricity_cost", 3), ("crf", 0.094392926), ("dcf_factor", 10.59401425),
   ("h2_selling_price", 3.5), ("carbon_tax", 0), ("tax_credit", 0),
   ("h2_storage_cost", 1), ("h2_transport_cost", 0)]

/-- The assignment quoted by the spec's numeric test: it binds thirteen keys
and omits `plant_life`, `discount_rate`, `capacity_factor` (which the engine
reads) and `plant_size_mw` (which it does not). -/
def quoted_assignment : Assignment := mkAssign
  [("capex_mw_yr", 3242), ("opex_mw_yr", 90000), ("annual_h2_prod", 876000),
   ("crf", 0.094392926), ("h2_efficiency_1", 50), ("h2_efficiency_2", 70),
   ("electricity_cost", 3), ("carbon_tax", 0), ("tax_credit", 0),
   ("h2_storage_cost", 1), ("h2_transport_cost", 0), ("h2_selling_price", 3.5),
   ("dcf_factor", 10.59401425)]

/-- `quoted_assignment` completed with the registry defaults for the three
read keys it omits (`plant_life = 20`, `discount_rate = 5`,
`capacity_factor = 90`); `plant_size_mw` is still absent. -/
def quoted_assignment_completed : Assignment := mkAssign
  [("capex_mw_yr", 3242), ("opex_mw_yr", 90000), ("annual_h2_prod", 876000),
   ("crf", 0.094392926), ("h2_efficiency_1", 50), ("h2_efficiency_2", 70),
   ("electricity_cost", 3), ("carbon_tax", 0), ("tax_credit", 0),
   ("h2_storage_cost", 1), ("h2_transport_cost", 0), ("h2_selling_price", 3.5),
   ("dcf_factor", 10.59401425), ("plant_life", 20), ("discount_rate", 5),
   ("capacity_factor", 90)]

/-- A complete assignment on which `profit = 0` while `cost = 1`: every cost
component vanishes except a storage cost of 1, and the selling price equals
the resulting `lcoh`. -/
def roi_zero_assignment : Assignment := mkAssign
  [("capex_mw_yr", 0), ("opex_mw_yr", 0), ("annual_h2_prod", 1), ("plant_life", 20),
   ("discount_rate", 5), ("capacity_factor", 90), ("h2_efficiency_1", 0),
   ("h2_efficiency_2", 0), ("electricity_cost", 0), ("crf", 0), ("dcf_factor", 1),
   ("h2_selling_price", 1), ("carbon_tax", 0), ("tax_credit", 0),
   ("h2_storage_cost", 1), ("h2_transport_cost", 0)]

/-- The value `calculate_model` produces on `roi_zero_assignment`. -/
def roi_zero_result : ModelResult := calculate_model_vals 0 0 1 20 5 90 0 0 0 0 1 1 0 0 1 0

/-- An assignment missing `capex_mw_yr` (and most other read keys). -/
def partial_assignment : Assignment := mkAssign [("opex_mw_yr", 90000)]

/-- The `money_check` string of the source is "Money" precisely when the
feasibility condition `lcoh < h2_selling_price` holds. -/
theorem money_check_iff (lcoh p : ℚ) :
    (if lcoh < p then "Money" else "No Money") = "Money" ↔ lcoh < p := by
  split
  · simp [*]
  · simp only [iff_false, *]
    decide

/-- Unfolding lemma: on an assignment whose sixteen read keys are all present,
`calculate_model` succeeds and returns the arithmetic body applied to the
sixteen looked-up values. -/
theorem calculate_model_spec (v : Assignment)
    (capex_yr opex_yr annual_prod0 plant_life discount_rate_pct cap_factor_pct
     eff1 eff2 elec_cost crf dcf_factor h2_price carbon_tax_ton tax_credit
     storage_cost transport_cost : ℚ)
    (h1 : v "capex_mw_yr" = some capex_yr)
    (h2 : v "opex_mw_yr" = some opex_yr)
    (h3 : v "annual_h2_prod" = some annual_prod0)
    (h4 : v "plant_life" = some plant_life)
    (h5 : v "discount_rate" = some discount_rate_pct)
    (h6 : v "capacity_factor" = some cap_factor_pct)
    (h7 : v "h2_efficiency_1" = some eff1)
    (h8 : v "h2_efficiency_2" = some eff2)
    (h9 : v "electricity_cost" = some elec_cost)
    (h10 : v "crf" = some crf)
    (h11 : v "dcf_factor" = some dcf_factor)
    (h12 : v "h2_selling_price" = some h2_price)
    (h13 : v "carbon_tax" = some carbon_tax_ton)
    (h14 : v "tax_credit" = some tax_credit)
    (h15 : v "h2_storage_cost" = some storage_cost)
    (h16 : v "h2_transport_cost" = some transport_cost) :
    calculate_model v = some (calculate_model_vals capex_yr opex_yr annual_prod0
      plant_life discount_rate_pct cap_factor_pct eff1 eff2 elec_cost crf
      dcf_factor h2_price carbon_tax_ton tax_credit storage_cost transport_cost) := by
  simp only [calculate_model, h1, h2, h3, h4, h5, h6, h7, h8, h9, h10, h11, h12,
    h13, h14, h15, h16]

/-- Every successful result of `calculate_model` is the arithmetic body applied
to some sixteen values. -/
theorem result_shape (v : Assignment) (r : ModelResult) (h : calculate_model v = some r) :
    ∃ a1 a2 a3 a4 a5 a6 a7 a8 a9 a10 a11 a12 a13 a14 a15 a16 : ℚ,
      r = calculate_model_vals a1 a2 a3 a4 a5 a6 a7 a8 a9 a10 a11 a12 a13 a14 a15 a16 := by
  unfold calculate_model at h
  split at h
  · exact ⟨_, _, _, _, _, _, _, _, _, _, _, _, _, _, _, _, (Option.some.inj h).symm⟩
  · simp at h

/-- The `roi` field is the guarded conditional the source computes. -/
theorem roi_if (a1 a2 a3 a4 a5 a6 a7 a8 a9 a10 a11 a12 a13 a14 a15 a16 : ℚ) :
    (calculate_model_vals a1 a2 a3 a4 a5 a6 a7 a8 a9 a10 a11 a12 a13 a14 a15 a16).roi =
      if (calculate_model_vals a1 a2 a3 a4 a5 a6 a7 a8 a9 a10 a11 a12 a13 a14 a15 a16).cost ≠ 0
      then ((calculate_model_vals a1 a2 a3 a4 a5 a6 a7 a8 a9 a10 a11 a12 a13 a14 a15 a16).profit /
            (calculate_model_vals a1 a2 a3 a4 a5 a6 a7 a8 a9 a10 a11 a12 a13 a14 a15 a16).cost) * 100
      else 0 := rfl

/-- The `payback` field is the conditional placeholder the source computes. -/
theorem payback_if (a1 a2 a3 a4 a5 a6 a7 a8 a9 a10 a11 a12 a13 a14 a15 a16 : ℚ) :
    (calculate_model_vals a1 a2 a3 a4 a5 a6 a7 a8 a9 a10 a11 a12 a13 a14 a15 a16).payback =
      if (calculate_model_vals a1 a2 a3 a4 a5 a6 a7 a8 a9 a10 a11 a12 a13 a14 a15 a16).profit > 0
      then 5 else 0 := rfl

/-- Claim C1: for every complete Parameter Assignment with `annual_h2_prod > 0`,
`calculate_model` (the spec's `evaluate`) returns exactly the formula set of
spec section 4.1: `capex_per_kg = (capex_mw_yr * crf) / annual_h2_prod`,
`opex_per_kg = opex_mw_yr / annual_h2_prod`,
`elec_per_kg = (h2_efficiency_1 + h2_efficiency_2) * (electricity_cost / 1000)`,
`carbon_tax_per_kg = carbon_tax / 1000`, `lcoh` as their sum plus storage and
transportation costs minus the tax credit, feasibility (`money_check = "Money"`)
exactly when `lcoh < h2_selling_price`, `revenue = h2_selling_price * annual_h2_prod`,
`cost = lcoh * annual_h2_prod`, `profit = revenue - cost` and
`npv = profit * dcf_factor`. -/
theorem evaluate_formula_set (v : Assignment)
    (capex_yr opex_yr annual_prod0 plant_life discount_rate_pct cap_factor_pct
     eff1 eff2 elec_cost crf dcf_factor h2_price carbon_tax_ton tax_credit
     storage_cost transport_cost : ℚ)
    (h1 : v "capex_mw_yr" = some capex_yr)
    (h2 : v "opex_mw_yr" = some opex_yr)
    (h3 : v "annual_h2_prod" = some annual_prod0)
    (h4 : v "plant_life" = some plant_life)
    (h5 : v "discount_rate" = some discount_rate_pct)
    (h6 : v "capacity_factor" = some cap_factor_pct)
    (h7 : v "h2_efficiency_1" = some eff1)
    (h8 : v "h2_efficiency_2" = some eff2)
    (h9 : v "electricity_cost" = some elec_cost)
    (h10 : v "crf" = some crf)
    (h11 : v "dcf_factor" = some dcf_factor)
    (h12 : v "h2_selling_price" = some h2_price)
    (h13 : v "carbon_tax" = some carbon_tax_ton)
    (h14 : v "tax_credit" = some tax_credit)
    (h15 : v "h2_storage_cost" = some storage_cost)
    (h16 : v "h2_transport_cost" = some transport_cost)
    (hpos : 0 < annual_prod0) :
    ∃ r : ModelResult, calculate_model v = some r ∧
      r.capex_per_kg = (capex_yr * crf) / annual_prod0 ∧
      r.opex_per_kg = opex_yr / annual_prod0 ∧
      r.elec_per_kg = (eff1 + eff2) * (elec_cost / 1000) ∧
      r.carbon_tax_per_kg = carbon_tax_ton / 1000 ∧
      r.lcoh = r.capex_per_kg + r.opex_per_kg + r.elec_per_kg + r.carbon_tax_per_kg
        + storage_cost + transport_cost - tax_credit ∧
      (r.money_check = "Money" ↔ r.lcoh < h2_price) ∧
      r.revenue = h2_price * annual_prod0 ∧
      r.cost = r.lcoh * annual_prod0 ∧
      r.profit = r.revenue - r.cost ∧
      r.npv = r.profit * dcf_factor := by
  refine ⟨_, calculate_model_spec v _ _ _ _ _ _ _ _ _ _ _ _ _ _ _ _
    h1 h2 h3 h4 h5 h6 h7 h8 h9 h10 h11 h12 h13 h14 h15 h16, ?_⟩
  have hif : (if annual_prod0 ≤ 0 then (1e-9 : ℚ) else annual_prod0) = annual_prod0 :=
    if_neg (not_le.mpr hpos)
  simp [calculate_model_vals, hif, money_check_iff]

/-- Witness for C1: the formula set at the registry defaults. -/
theorem evaluate_formula_set_witness :
    default_assignment "annual_h2_prod" = some 876000 ∧ (0 : ℚ) < 876000 ∧
    (∃ r : ModelResult, calculate_model default_assignment = some r ∧
      r.capex_per_kg = ((3242 : ℚ) * 0.094392926) / 876000 ∧
      r.opex_per_kg = (90000 : ℚ) / 876000 ∧
      r.elec_per_kg = ((50 : ℚ) + 70) * (3 / 1000) ∧
      r.carbon_tax_per_kg = (0 : ℚ) / 1000 ∧
      r.lcoh = r.capex_per_kg + r.opex_per_kg + r.elec_per_kg + r.carbon_tax_per_kg
        + 1 + 0 - 0 ∧
      (r.money_check = "Money" ↔ r.lcoh < 3.5) ∧
      r.revenue = (3.5 : ℚ) * 876000 ∧
      r.cost = r.lcoh * 876000 ∧
      r.profit = r.revenue - r.cost ∧
      r.npv = r.profit * 10.59401425) :=
  ⟨rfl, by decide, evaluate_formula_set default_assignment 3242 90000 876000 20 5 90
    50 70 3 0.094392926 10.59401425 3.5 0 0 1 0
    rfl rfl rfl rfl rfl rfl rfl rfl rfl rfl rfl rfl rfl rfl rfl rfl (by decide)⟩

/-- Claim C2: for every complete Parameter Assignment with `annual_h2_prod ≤ 0`,
`calculate_model` still succeeds (no exception is signalled) and the two
divisions use the substituted epsilon `1e-9` as divisor, which is strictly
positive, so `capex_per_kg` and `opex_per_kg` are the well-defined finite
rationals `(capex_mw_yr * crf) / 1e-9` and `opex_mw_yr / 1e-9`: in this exact
embedding there are no infinite or NaN values, and no division by zero occurs. -/
theorem evaluate_epsilon_substitution (v : Assignment)
    (capex_yr opex_yr annual_prod0 plant_life discount_rate_pct cap_factor_pct
     eff1 eff2 elec_cost crf dcf_factor h2_price carbon_tax_ton tax_credit
     storage_cost transport_cost : ℚ)
    (h1 : v "capex_mw_yr" = some capex_yr)
    (h2 : v "opex_mw_yr" = some opex_yr)
    (h3 : v "annual_h2_prod" = some annual_prod0)
    (h4 : v "plant_life" = some plant_life)
    (h5 : v "discount_rate" = some discount_rate_pct)
    (h6 : v "capacity_factor" = some cap_factor_pct)
    (h7 : v "h2_efficiency_1" = some eff1)
    (h8 : v "h2_efficiency_2" = some eff2)
    (h9 : v "electricity_cost" = some elec_cost)
    (h10 : v "crf" = some crf)
    (h11 : v "dcf_factor" = some dcf_factor)
    (h12 : v "h2_selling_price" = some h2_price)
    (h13 : v "carbon_tax" = some carbon_tax_ton)
    (h14 : v "tax_credit" = some tax_credit)
    (h15 : v "h2_storage_cost" = some storage_cost)
    (h16 : v "h2_transport_cost" = some transport_cost)
    (hnonpos : annual_prod0 ≤ 0) :
    (0 : ℚ) < 1e-9 ∧
    ∃ r : ModelResult, calculate_model v = some r ∧
      r.capex_per_kg = (capex_yr * crf) / (1e-9 : ℚ) ∧
      r.opex_per_kg = opex_yr / (1e-9 : ℚ) := by
  refine ⟨by norm_num, _, calculate_model_spec v _ _ _ _ _ _ _ _ _ _ _ _ _ _ _ _
    h1 h2 h3 h4 h5 h6 h7 h8 h9 h10 h11 h12 h13 h14 h15 h16, ?_, ?_⟩ <;>
    simp [calculate_model_vals, if_pos hnonpos]

/-- Witness for C2: the epsilon substitution with `annual_h2_prod = 0`. -/
theorem evaluate_epsilon_substitution_witness :
    zero_prod_assignment "annual_h2_prod" = some 0 ∧ (0 : ℚ) ≤ 0 ∧
    ((0 : ℚ) < 1e-9 ∧
     ∃ r : ModelResult, calculate_model zero_prod_assignment = some r ∧
       r.capex_per_kg = ((3242 : ℚ) * 0.094392926) / (1e-9 : ℚ) ∧
       r.opex_per_kg = (90000 : ℚ) / (1e-9 : ℚ)) :=
  ⟨rfl, by decide, evaluate_epsilon_substitution zero_prod_assignment 3242 90000 0 20 5 90
    50 70 3 0.094392926 10.59401425 3.5 0 0 1 0
    rfl rfl rfl rfl rfl rfl rfl rfl rfl rfl rfl rfl rfl rfl rfl rfl (by decide)⟩

/-- Claim C3, counterexample: the claim's note says the engine also reads
`plant_size_mw`, but `calculate_model` succeeds on
`quoted_assignment_completed`, in which `plant_size_mw` is absent — the engine
never reads that key (contrast with the missing-key behaviour of C9). -/
theorem quoted_assignment_plant_size_not_read :
    quoted_assignment_completed "plant_size_mw" = none ∧
    (calculate_model quoted_assignment_completed).isSome = true := ⟨rfl, rfl⟩

/-- Claim C3, amended: on the quoted assignment itself `calculate_model` fails
(it omits the read keys `plant_life`, `discount_rate`, `capacity_factor`, but
`plant_size_mw` is not read); completing it with the registry defaults for
those three keys, `calculate_model` yields `capex_per_kg ≈ 0.000349` (within
1e-6), `opex_per_kg ≈ 0.10274` (within 1e-5), `elec_per_kg = 0.36` exactly,
`lcoh ≈ 1.4631` (within 1e-4), and feasibility (`money_check = "Money"`). -/
theorem quoted_assignment_evaluation :
    calculate_model quoted_assignment = none ∧
    ∃ r : ModelResult, calculate_model quoted_assignment_completed = some r ∧
      abs (r.capex_per_kg - 0.000349) < 1/1000000 ∧
      abs (r.opex_per_kg - 0.10274) < 1/100000 ∧
      r.elec_per_kg = 0.36 ∧
      abs (r.lcoh - 1.4631) < 1/10000 ∧
      r.money_check = "Money" := by
  refine ⟨rfl, calculate_model_vals 3242 90000 876000 20 5 90 50 70 3 0.094392926
    10.59401425 3.5 0 0 1 0, rfl, ?_, ?_, ?_, ?_, ?_⟩
  · norm_num [calculate_model_vals, abs_lt]
  · norm_num [calculate_model_vals, abs_lt]
  · norm_num [calculate_model_vals]
  · norm_num [calculate_model_vals, abs_lt]
  · norm_num [calculate_model_vals]

/-- Claim C4: decoding an optimization outcome over an empty Decision Set
leaves every parameter value unchanged and returns the fixed assignment's own
`calculate_model` result, whatever vector the solver returns (with no decision
keys, `x0 = []` and the overlay loop runs zero times): the degenerate
single-point optimization. -/
theorem optimize_empty_decision_set (fixed : Assignment) (res_x : List ℚ) :
    optimize_decode fixed [] res_x = calculate_model fixed ∧
    ∀ k, overlay fixed [] res_x k = fixed k :=
  ⟨rfl, fun _ => rfl⟩

/-- Claim C5: `calculate_model` does not depend on `discount_rate` or
`capacity_factor`: two complete assignments agreeing on every key except
possibly those two produce identical results (both values are read and divided
by 100 but never enter any output formula). -/
theorem evaluate_ignores_discount_and_capacity (v1 v2 : Assignment)
    (hc1 : Complete v1) (hc2 : Complete v2)
    (hagree : ∀ k, k ≠ "discount_rate" → k ≠ "capacity_factor" → v1 k = v2 k) :
    calculate_model v1 = calculate_model v2 := by
  obtain ⟨a1, e1⟩ := Option.isSome_iff_exists.mp (hc1 "capex_mw_yr" (by decide))
  obtain ⟨a2, e2⟩ := Option.isSome_iff_exists.mp (hc1 "opex_mw_yr" (by decide))
  obtain ⟨a3, e3⟩ := Option.isSome_iff_exists.mp (hc1 "annual_h2_prod" (by decide))
  obtain ⟨a4, e4⟩ := Option.isSome_iff_exists.mp (hc1 "plant_life" (by decide))
  obtain ⟨a5, e5⟩ := Option.isSome_iff_exists.mp (hc1 "discount_rate" (by decide))
  obtain ⟨a6, e6⟩ := Option.isSome_iff_exists.mp (hc1 "capacity_factor" (by decide))
  obtain ⟨a7, e7⟩ := Option.isSome_iff_exists.mp (hc1 "h2_efficiency_1" (by decide))
  obtain ⟨a8, e8⟩ := Option.isSome_iff_exists.mp (hc1 "h2_efficiency_2" (by decide))
  obtain ⟨a9, e9⟩ := Option.isSome_iff_exists.mp (hc1 "electricity_cost" (by decide))
  obtain ⟨a10, e10⟩ := Option.isSome_iff_exists.mp (hc1 "crf" (by decide))
  obtain ⟨a11, e11⟩ := Option.isSome_iff_exists.mp (hc1 "dcf_factor" (by decide))
  obtain ⟨a12, e12⟩ := Option.isSome_iff_exists.mp (hc1 "h2_selling_price" (by decide))
  obtain ⟨a13, e13⟩ := Option.isSome_iff_exists.mp (hc1 "carbon_tax" (by decide))
  obtain ⟨a14, e14⟩ := Option.isSome_iff_exists.mp (hc1 "tax_credit" (by decide))
  obtain ⟨a15, e15⟩ := Option.isSome_iff_exists.mp (hc1 "h2_storage_cost" (by decide))
  obtain ⟨a16, e16⟩ := Option.isSome_iff_exists.mp (hc1 "h2_transport_cost" (by decide))
  obtain ⟨b5, f5⟩ := Option.isSome_iff_exists.mp (hc2 "discount_rate" (by decide))
  obtain ⟨b6, f6⟩ := Option.isSome_iff_exists.mp (hc2 "capacity_factor" (by decide))
  have g1 : v2 "capex_mw_yr" = some a1 := hagree "capex_mw_yr" (by decide) (by decide) ▸ e1
  have g2 : v2 "opex_mw_yr" = some a2 := hagree "opex_mw_yr" (by decide) (by decide) ▸ e2
  have g3 : v2 "annual_h2_prod" = some a3 := hagree "annual_h2_prod" (by decide) (by decide) ▸ e3
  have g4 : v2 "plant_life" = some a4 := hagree "plant_life" (by decide) (by decide) ▸ e4
  have g7 : v2 "h2_efficiency_1" = some a7 := hagree "h2_efficiency_1" (by decide) (by decide) ▸ e7
  have g8 : v2 "h2_efficiency_2" = some a8 := hagree "h2_efficiency_2" (by decide) (by decide) ▸ e8
  have g9 : v2 "electricity_cost" = some a9 := hagree "electricity_cost" (by decide) (by decide) ▸ e9
  have g10 : v2 "crf" = some a10 := hagree "crf" (by decide) (by decide) ▸ e10
  have g11 : v2 "dcf_factor" = some a11 := hagree "dcf_factor" (by decide) (by decide) ▸ e11
  have g12 : v2 "h2_selling_price" = some a12 :=
    hagree "h2_selling_price" (by decide) (by decide) ▸ e12
  have g13 : v2 "carbon_tax" = some a13 := hagree "carbon_tax" (by decide) (by decide) ▸ e13
  have g14 : v2 "tax_credit" = some a14 := hagree "tax_credit" (by decide) (by decide) ▸ e14
  have g15 : v2 "h2_storage_cost" = some a15 :=
    hagree "h2_storage_cost" (by decide) (by decide) ▸ e15
  have g16 : v2 "h2_transport_cost" = some a16 :=
    hagree "h2_transport_cost" (by decide) (by decide) ▸ e16
  rw [calculate_model_spec v1 a1 a2 a3 a4 a5 a6 a7 a8 a9 a10 a11 a12 a13 a14 a15 a16
      e1 e2 e3 e4 e5 e6 e7 e8 e9 e10 e11 e12 e13 e14 e15 e16,
    calculate_model_spec v2 a1 a2 a3 a4 b5 b6 a7 a8 a9 a10 a11 a12 a13 a14 a15 a16
      g1 g2 g3 g4 f5 f6 g7 g8 g9 g10 g11 g12 g13 g14 g15 g16]
  rfl

/-- Witness for C5: the registry defaults against the same assignment with
`discount_rate` edited to 12 and `capacity_factor` edited to 37. -/
theorem evaluate_ignores_discount_and_capacity_witness :
    Complete default_assignment ∧ Complete discount_capacity_variant ∧
    (∀ k, k ≠ "discount_rate" → k ≠ "capacity_factor" →
      default_assignment k = discount_capacity_variant k) ∧
    calculate_model default_assignment = calculate_model discount_capacity_variant := by
  have hagree : ∀ k, k ≠ "discount_rate" → k ≠ "capacity_factor" →
      default_assignment k = discount_capacity_variant k := by
    intro k hk1 hk2
    simp [discount_capacity_variant, overlay, beq_iff_eq, hk1, hk2]
  exact ⟨by decide, by decide, hagree,
    evaluate_ignores_discount_and_capacity default_assignment discount_capacity_variant
      (by decide) (by decide) hagree⟩

/-- Claim C10 (implicit): `calculate_model` is also independent of
`plant_size_mw` and `plant_life`: two complete assignments agreeing on every
key except possibly those two produce identical results (`plant_life` is read
but never used in any formula; `plant_size_mw` is never read at all). -/
theorem evaluate_ignores_plant_size_and_life (v1 v2 : Assignment)
    (hc1 : Complete v1) (hc2 : Complete v2)
    (hagree : ∀ k, k ≠ "plant_size_mw" → k ≠ "plant_life" → v1 k = v2 k) :
    calculate_model v1 = calculate_model v2 := by
  obtain ⟨a1, e1⟩ := Option.isSome_iff_exists.mp (hc1 "capex_mw_yr" (by decide))
  obtain ⟨a2, e2⟩ := Option.isSome_iff_exists.mp (hc1 "opex_mw_yr" (by decide))
  obtain ⟨a3, e3⟩ := Option.isSome_iff_exists.mp (hc1 "annual_h2_prod" (by decide))
  obtain ⟨a4, e4⟩ := Option.isSome_iff_exists.mp (hc1 "plant_life" (by decide))
  obtain ⟨a5, e5⟩ := Option.isSome_iff_exists.mp (hc1 "discount_rate" (by decide))
  obtain ⟨a6, e6⟩ := Option.isSome_iff_exists.mp (hc1 "capacity_factor" (by decide))
  obtain ⟨a7, e7⟩ := Option.isSome_iff_exists.mp (hc1 "h2_efficiency_1" (by decide))
  obtain ⟨a8, e8⟩ := Option.isSome_iff_exists.mp (hc1 "h2_efficiency_2" (by decide))
  obtain ⟨a9, e9⟩ := Option.isSome_iff_exists.mp (hc1 "electricity_cost" (by decide))
  obtain ⟨a10, e10⟩ := Option.isSome_iff_exists.mp (hc1 "crf" (by decide))
  obtain ⟨a11, e11⟩ := Option.isSome_iff_exists.mp (hc1 "dcf_factor" (by decide))
  obtain ⟨a12, e12⟩ := Option.isSome_iff_exists.mp (hc1 "h2_selling_price" (by decide))
  obtain ⟨a13, e13⟩ := Option.isSome_iff_exists.mp (hc1 "carbon_tax" (by decide))
  obtain ⟨a14, e14⟩ := Option.isSome_iff_exists.mp (hc1 "tax_credit" (by decide))
  obtain ⟨a15, e15⟩ := Option.isSome_iff_exists.mp (hc1 "h2_storage_cost" (by decide))
  obtain ⟨a16, e16⟩ := Option.isSome_iff_exists.mp (hc1 "h2_transport_cost" (by decide))
  obtain ⟨b4, f4⟩ := Option.isSome_iff_exists.mp (hc2 "plant_life" (by decide))
  have g1 : v2 "capex_mw_yr" = some a1 := hagree "capex_mw_yr" (by decide) (by decide) ▸ e1
  have g2 : v2 "opex_mw_yr" = some a2 := hagree "opex_mw_yr" (by decide) (by decide) ▸ e2
  have g3 : v2 "annual_h2_prod" = some a3 := hagree "annual_h2_prod" (by decide) (by decide) ▸ e3
  have g5 : v2 "discount_rate" = some a5 := hagree "discount_rate" (by decide) (by decide) ▸ e5
  have g6 : v2 "capacity_factor" = some a6 :=
    hagree "capacity_factor" (by decide) (by decide) ▸ e6
  have g7 : v2 "h2_efficiency_1" = some a7 := hagree "h2_efficiency_1" (by decide) (by decide) ▸ e7
  have g8 : v2 "h2_efficiency_2" = some a8 := hagree "h2_efficiency_2" (by decide) (by decide) ▸ e8
  have g9 : v2 "electricity_cost" = some a9 := hagree "electricity_cost" (by decide) (by decide) ▸ e9
  have g10 : v2 "crf" = some a10 := hagree "crf" (by decide) (by decide) ▸ e10
  have g11 : v2 "dcf_factor" = some a11 := hagree "dcf_factor" (by decide) (by decide) ▸ e11
  have g12 : v2 "h2_selling_price" = some a12 :=
    hagree "h2_selling_price" (by decide) (by decide) ▸ e12
  have g13 : v2 "carbon_tax" = some a13 := hagree "carbon_tax" (by decide) (by decide) ▸ e13
  have g14 : v2 "tax_credit" = some a14 := hagree "tax_credit" (by decide) (by decide) ▸ e14
  have g15 : v2 "h2_storage_cost" = some a15 :=
    hagree "h2_storage_cost" (by decide) (by decide) ▸ e15
  have g16 : v2 "h2_transport_cost" = some a16 :=
    hagree "h2_transport_cost" (by decide) (by decide) ▸ e16
  rw [calculate_model_spec v1 a1 a2 a3 a4 a5 a6 a7 a8 a9 a10 a11 a12 a13 a14 a15 a16
      e1 e2 e3 e4 e5 e6 e7 e8 e9 e10 e11 e12 e13 e14 e15 e16,
    calculate_model_spec v2 a1 a2 a3 b4 a5 a6 a7 a8 a9 a10 a11 a12 a13 a14 a15 a16
      g1 g2 g3 f4 g5 g6 g7 g8 g9 g10 g11 g12 g13 g14 g15 g16]
  rfl

/-- Witness for C10: the registry defaults against the same assignment with
`plant_size_mw` edited to 9999 and `plant_life` edited to 3. -/
theorem evaluate_ignores_plant_size_and_life_witness :
    Complete default_assignment ∧ Complete plant_variant ∧
    (∀ k, k ≠ "plant_size_mw" → k ≠ "plant_life" →
      default_assignment k = plant_variant k) ∧
    calculate_model default_assignment = calculate_model plant_variant := by
  have hagree : ∀ k, k ≠ "plant_size_mw" → k ≠ "plant_life" →
      default_assignment k = plant_variant k := by
    intro k hk1 hk2
    simp [plant_variant, overlay, beq_iff_eq, hk1, hk2]
  exact ⟨by decide, by decide, hagree,
    evaluate_ignores_plant_size_and_life default_assignment plant_variant
      (by decide) (by decide) hagree⟩

/-- Claim C6: for every decision key with bounds `[var_min, var_max]`,
`sweep_key` produces exactly 20 samples, the i-th sample value being the
evenly spaced `var_min + (var_max - var_min) * i / 19` paired with the `npv`
of `calculate_model` on the fixed assignment with only that key overlaid by
the sample value; the first sample value is exactly `var_min` and the last
exactly `var_max` (so for bounds 1 and 700 the literal endpoints 1 and 700). -/
theorem sweep_key_twenty_even_samples (fixed : Assignment) (k : String)
    (var_min var_max : ℚ) :
    sweep_key fixed k var_min var_max =
      (List.range 20).map (fun i : ℕ =>
        (var_min + (var_max - var_min) * (i : ℚ) / 19,
         (calculate_model (overlay fixed [k] [var_min + (var_max - var_min) * (i : ℚ) / 19])).map
            ModelResult.npv)) ∧
    (sweep_key fixed k var_min var_max).length = 20 ∧
    (sweep_key fixed k var_min var_max).head?.map Prod.fst = some var_min ∧
    (sweep_key fixed k var_min var_max).getLast?.map Prod.fst = some var_max := by
  have hmap : sweep_key fixed k var_min var_max =
      (List.range 20).map (fun i : ℕ =>
        (var_min + (var_max - var_min) * (i : ℚ) / 19,
         (calculate_model (overlay fixed [k] [var_min + (var_max - var_min) * (i : ℚ) / 19])).map
            ModelResult.npv)) := by
    unfold sweep_key linspace
    rw [List.map_map]
    apply List.map_congr_left
    intro i _
    norm_num
  have hr20 : List.range 20 = [0,1,2,3,4,5,6,7,8,9,10,11,12,13,14,15,16,17,18,19] := rfl
  refine ⟨hmap, ?_, ?_, ?_⟩
  · rw [hmap, List.length_map, List.length_range]
  · rw [hmap, hr20]
    simp only [List.map_cons, List.head?_cons, Option.map_some]
    norm_num
  · rw [hmap, hr20]
    have h19 : var_min + (var_max - var_min) * ((19 : ℕ) : ℚ) / 19 = var_max := by
      push_cast; ring
    simp only [List.map_cons, List.map_nil, h19, List.getLast?_cons_cons,
      List.getLast?_singleton, Option.map_some]
    rfl

/-- Claim C7, counterexample: on `roi_zero_assignment` the result has
`cost = 1 ≠ 0` yet `roi = 0` (because `profit = 0`), so "roi equals 0 exactly
when cost = 0" fails: `roi` can be 0 with nonzero cost. -/
theorem roi_zero_with_nonzero_cost :
    ∃ r : ModelResult, calculate_model roi_zero_assignment = some r ∧
      r.cost ≠ 0 ∧ r.roi = 0 := by
  refine ⟨roi_zero_result, rfl, ?_, ?_⟩
  · norm_num [roi_zero_result, calculate_model_vals]
  · norm_num [roi_zero_result, calculate_model_vals]

/-- Claim C7, amended: for every result of `calculate_model`, `roi = 0` when
`cost = 0`, and `roi = (profit / cost) * 100` when `cost ≠ 0`; the division is
guarded and never performed when `cost = 0` (but `roi` may also be 0 with
nonzero cost, when `profit = 0`). -/
theorem roi_guarded_division (v : Assignment) (r : ModelResult)
    (h : calculate_model v = some r) :
    (r.cost = 0 → r.roi = 0) ∧ (r.cost ≠ 0 → r.roi = r.profit / r.cost * 100) := by
  obtain ⟨a1, a2, a3, a4, a5, a6, a7, a8, a9, a10, a11, a12, a13, a14, a15, a16, rfl⟩ :=
    result_shape v r h
  constructor
  · intro h0
    rw [roi_if, if_neg (not_not_intro h0)]
  · intro h0
    rw [roi_if, if_pos h0]

/-- Witness for the amended C7: the guarded `roi` at `roi_zero_assignment`. -/
theorem roi_guarded_division_witness :
    calculate_model roi_zero_assignment = some roi_zero_result ∧
    ((roi_zero_result.cost = 0 → roi_zero_result.roi = 0) ∧
     (roi_zero_result.cost ≠ 0 →
       roi_zero_result.roi = roi_zero_result.profit / roi_zero_result.cost * 100)) :=
  ⟨rfl, roi_guarded_division roi_zero_assignment roi_zero_result rfl⟩

/-- Claim C8: for every result of `calculate_model`, `payback` is exactly 5
when `profit > 0` and exactly 0 otherwise; no other value is ever produced. -/
theorem payback_placeholder (v : Assignment) (r : ModelResult)
    (h : calculate_model v = some r) :
    r.payback = (if r.profit > 0 then 5 else 0) ∧ (r.payback = 5 ∨ r.payback = 0) := by
  obtain ⟨a1, a2, a3, a4, a5, a6, a7, a8, a9, a10, a11, a12, a13, a14, a15, a16, rfl⟩ :=
    result_shape v r h
  refine ⟨payback_if a1 a2 a3 a4 a5 a6 a7 a8 a9 a10 a11 a12 a13 a14 a15 a16, ?_⟩
  rw [payback_if]
  split
  · exact Or.inl rfl
  · exact Or.inr rfl

/-- Witness for C8: the payback placeholder at the registry defaults. -/
theorem payback_placeholder_witness :
    calculate_model default_assignment = some default_result ∧
    (default_result.payback = (if default_result.profit > 0 then 5 else 0) ∧
     (default_result.payback = 5 ∨ default_result.payback = 0)) :=
  ⟨rfl, payback_placeholder default_assignment default_result rfl⟩

/-- Claim C9: `calculate_model` applied to a partial Parameter Assignment —
one in which any key the engine reads is absent — signals a lookup failure:
the result is `none`, the error case of the `Option`-valued embedding. -/
theorem evaluate_missing_key_fails (v : Assignment) (k : String)
    (hk : k ∈ readKeys) (hnone : v k = none) : calculate_model v = none := by
  fin_cases hk <;> (unfold calculate_model; split <;> simp_all)

/-- Witness for C9: an assignment missing `capex_mw_yr` makes `calculate_model`
fail. -/
theorem evaluate_missing_key_fails_witness :
    ("capex_mw_yr" ∈ readKeys ∧ partial_assignment "capex_mw_yr" = none) ∧
    calculate_model partial_assignment = none :=
  ⟨⟨by decide, rfl⟩,
   evaluate_missing_key_fails partial_assignment "capex_mw_yr" (by decide) rfl⟩
